import Mathlib

/-!
Verification of the session resume resolver of the SunHacksProject learning
application.

The resolver is the pure core of the function getSessionResumeData in
src/src/lib/sessionService.js: given a persisted session row together with its
flashcard and question child rows (already fetched by getSessionById), it
derives the resume view: the phase the UI should re-enter, the set of studied
flashcard indices, the index of the next card to display, and the list of
already-answered questions.

The definitions below are a shallow embedding of that JavaScript code:

  - studiedCards mirrors the Set built from
    session.flashcards.filter(card => card.is_studied).map(card => card.flashcard_index);
  - currentCardIndex mirrors the scan loop over indices 0 .. length-1 that
    stops at the first index absent from the studied set (defaulting to 0),
    followed by the all-studied override that resets the index to length - 1;
  - currentPhase mirrors the branch cascade on session_type / status /
    studied-count / prerequisite_results / prerequisites, with the initial
    default value flashcards;
  - answeredQuestions mirrors
    session.questions.filter(q => q.user_answer !== null) followed by the
    projection to questionIndex / userAnswer / isCorrect;
  - resolveSession assembles the returned resumeData object, and
    getSessionResumeData wraps it in the success/error shape of the
    JavaScript function (the only throw inside the try block comes from the
    out-of-scope database fetch, so the in-scope computation always succeeds).

Database null values (user_answer, is_correct, prerequisites,
prerequisite_results) are embedded as Option, with none standing for null;
the JavaScript truthiness tests on prerequisites / prerequisite_results are
embedded as isSome, faithful to the value domain (the fields hold either null
or a JSON object/array, and any object or array is truthy).
-/

namespace SunHacks

/-- One row of the session_flashcards table, as consumed by the resolver. -/
structure FlashcardRecord where
  flashcard_index : Nat
  question : String
  answer : String
  is_studied : Bool
deriving DecidableEq

/-- One row of the session_questions table, as consumed by the resolver.
user_answer and is_correct are nullable columns, embedded as Option. -/
structure QuestionRecord where
  question_index : Nat
  question : String
  options : List String
  correct_answer : String
  user_answer : Option String
  is_correct : Option Bool
deriving DecidableEq

/-- The session aggregate returned by getSessionById: the learning_sessions
row together with its flashcard and question child rows. prerequisites,
prerequisite_results, core_concepts, advanced_concepts and evaluation_results
are nullable JSON columns; only their presence matters to the resolver, so
the JSON payloads are embedded as simple carrier types. -/
structure Session where
  id : String
  session_type : String
  status : String
  topic : String
  total_flashcards : Nat
  studied_flashcards : Nat
  total_questions : Nat
  correct_answers : Nat
  prerequisites : Option (List String)
  prerequisite_results : Option (List (String × Bool))
  core_concepts : Option String
  advanced_concepts : Option String
  evaluation_results : Option String
  flashcards : List FlashcardRecord
  questions : List QuestionRecord
deriving DecidableEq

/-- Projection of a flashcard row to the question/answer pair returned in
resumeData.flashcards. -/
structure FlashcardView where
  question : String
  answer : String
deriving DecidableEq

/-- Projection of a question row returned in resumeData.questions. -/
structure QuestionView where
  question : String
  options : List String
  correctAnswer : String
deriving DecidableEq

/-- One entry of resumeData.answeredQuestions: the projection of an answered
question row to questionIndex / userAnswer / isCorrect. -/
structure AnsweredQuestion where
  questionIndex : Nat
  userAnswer : Option String
  isCorrect : Option Bool
deriving DecidableEq

/-- The resumeData object assembled by getSessionResumeData. -/
structure ResumeData where
  sessionId : String
  sessionType : String
  topic : String
  currentPhase : String
  flashcards : List FlashcardView
  studiedCards : Finset Nat
  currentCardIndex : Nat
  questions : List QuestionView
  answeredQuestions : List AnsweredQuestion
  totalFlashcards : Nat
  studiedFlashcardsCount : Nat
  totalQuestions : Nat
  correctAnswers : Nat
  prerequisites : Option (List String)
  prerequisiteResults : Option (List (String × Bool))
  coreConcepts : Option String
  advancedConcepts : Option String
  evaluationResults : Option String
deriving DecidableEq

/-- Embedding of: new Set(session.flashcards.filter(card => card.is_studied)
.map(card => card.flashcard_index)). -/
def studiedCards (s : Session) : Finset Nat :=
  ((s.flashcards.filter (fun c => c.is_studied)).map
    (fun c => c.flashcard_index)).toFinset

/-- Embedding of the currentCardIndex computation: a loop over
i = 0 .. flashcards.length - 1 that sets the index to the first i absent from
the studied set and breaks (the index stays 0 when every i is studied),
followed by the override setting it to flashcards.length - 1 when the studied
set has as many elements as the flashcard list and the list is non-empty. -/
def currentCardIndex (s : Session) : Nat :=
  let studied := studiedCards s
  let scan :=
    ((List.range s.flashcards.length).find?
      (fun i => !(decide (i ∈ studied)))).getD 0
  if studied.card = s.flashcards.length ∧ 0 < s.flashcards.length then
    s.flashcards.length - 1
  else scan

/-- Embedding of the currentPhase branch cascade. The variable is initialised
to flashcards; the fast branch checks status = completed, then all-studied
with a positive card count; the depth branch checks status = completed, then
presence of prerequisite_results, then presence of prerequisites; a
session_type that is neither fast nor depth leaves the initial value. -/
def currentPhase (s : Session) : String :=
  if s.session_type = "fast" then
    if s.status = "completed" then "completed"
    else if (studiedCards s).card = s.total_flashcards ∧ 0 < s.total_flashcards then
      "evaluation"
    else "flashcards"
  else if s.session_type = "depth" then
    if s.status = "completed" then "completed"
    else if s.prerequisite_results.isSome then "learning"
    else if s.prerequisites.isSome then "evaluation"
    else "prerequisites"
  else "flashcards"

/-- Embedding of: session.questions.filter(q => q.user_answer !== null)
.map(q => ({questionIndex: q.question_index, userAnswer: q.user_answer,
isCorrect: q.is_correct})). -/
def answeredQuestions (s : Session) : List AnsweredQuestion :=
  (s.questions.filter (fun q => q.user_answer.isSome)).map
    (fun q =>
      { questionIndex := q.question_index
        userAnswer := q.user_answer
        isCorrect := q.is_correct })

/-- Embedding of the resumeData object returned on success. -/
def resolveSession (s : Session) : ResumeData :=
  { sessionId := s.id
    sessionType := s.session_type
    topic := s.topic
    currentPhase := currentPhase s
    flashcards := s.flashcards.map
      (fun c => { question := c.question, answer := c.answer })
    studiedCards := studiedCards s
    currentCardIndex := currentCardIndex s
    questions := s.questions.map
      (fun q =>
        { question := q.question
          options := q.options
          correctAnswer := q.correct_answer })
    answeredQuestions := answeredQuestions s
    totalFlashcards := s.total_flashcards
    studiedFlashcardsCount := s.studied_flashcards
    totalQuestions := s.total_questions
    correctAnswers := s.correct_answers
    prerequisites := s.prerequisites
    prerequisiteResults := s.prerequisite_results
    coreConcepts := s.core_concepts
    advancedConcepts := s.advanced_concepts
    evaluationResults := s.evaluation_results }

/-- Embedding of getSessionResumeData restricted to its in-scope part: the
JavaScript function returns either a success object carrying resumeData or a
failure object carrying an error message; once the session aggregate has been
fetched, no statement in the try block can throw, so the in-scope computation
always takes the success path. -/
def getSessionResumeData (s : Session) : Except String ResumeData :=
  Except.ok (resolveSession s)

/-! Helper lemmas about the scan over List.range and the studied set. -/

/-- When find? over List.range n yields no index, every index below n fails
the predicate. -/
theorem find?_range_none (p : Nat → Bool) (n : Nat)
    (h : (List.range n).find? p = none) :
    ∀ j, j < n → p j = false := by
  intro j hj
  have := List.find?_eq_none.mp h j (List.mem_range.mpr hj)
  simpa using this

/-- When find? over List.range n yields an index i, then i satisfies the
predicate, lies below n, and is the least index satisfying the predicate. -/
theorem find?_range_some (p : Nat → Bool) (n i : Nat)
    (h : (List.range n).find? p = some i) :
    p i = true ∧ i < n ∧ ∀ j, j < i → p j = false := by
  induction n with
  | zero => simp [List.range_zero] at h
  | succ m ih =>
    rw [List.range_succ, List.find?_append] at h
    cases hm : (List.range m).find? p with
    | some k =>
      rw [hm] at h
      have hk : k = i := by simpa using h
      subst hk
      obtain ⟨hp, hlt, hmin⟩ := ih hm
      exact ⟨hp, Nat.lt_succ_of_lt hlt, hmin⟩
    | none =>
      rw [hm] at h
      have h2 : List.find? p [m] = some i := by simpa using h
      cases hp : p m with
      | true =>
        have hmi : m = i := by simp [List.find?, hp] at h2; exact h2
        subst hmi
        exact ⟨hp, Nat.lt_succ_self m, find?_range_none p m hm⟩
      | false => simp [List.find?, hp] at h2

/-- The list of studied indices underlying the studied set is a sublist of
the full index list. -/
theorem studiedIndexList_sublist (s : Session) :
    ((s.flashcards.filter (fun c => c.is_studied)).map
        (fun c => c.flashcard_index)).Sublist
      (s.flashcards.map (fun c => c.flashcard_index)) :=
  (List.filter_sublist s.flashcards).map (fun c => c.flashcard_index)

/-- Membership in the studied set: an index is studied exactly when some
flashcard row carries that index with is_studied set. -/
theorem mem_studiedCards (s : Session) (i : Nat) :
    i ∈ studiedCards s ↔
      ∃ c ∈ s.flashcards, c.is_studied = true ∧ c.flashcard_index = i := by
  rw [studiedCards, List.mem_toFinset, List.mem_map]
  constructor
  · rintro ⟨c, hc, rfl⟩
    rw [List.mem_filter] at hc
    exact ⟨c, hc.1, hc.2, rfl⟩
  · rintro ⟨c, hc, hstud, rfl⟩
    exact ⟨c, List.mem_filter.mpr ⟨hc, hstud⟩, rfl⟩

/-- When the flashcard indices are exactly 0 .. N-1, the studied set has as
many elements as there are studied rows (no index collapses in the set). -/
theorem studiedCards_card (s : Session) (N : Nat)
    (hidx : s.flashcards.map (fun c => c.flashcard_index) = List.range N) :
    (studiedCards s).card = s.flashcards.countP (fun c => c.is_studied) := by
  have hnd : ((s.flashcards.filter (fun c => c.is_studied)).map
      (fun c => c.flashcard_index)).Nodup := by
    have hrange : (s.flashcards.map (fun c => c.flashcard_index)).Nodup := by
      rw [hidx]; exact List.nodup_range N
    exact hrange.sublist (studiedIndexList_sublist s)
  rw [studiedCards, List.toFinset_card_of_nodup hnd, List.length_map]
  exact (List.countP_eq_length_filter _ _).symm

/-- When the flashcard indices are exactly 0 .. N-1, every studied index lies
below N. -/
theorem studiedCards_subset_range (s : Session) (N : Nat)
    (hidx : s.flashcards.map (fun c => c.flashcard_index) = List.range N) :
    studiedCards s ⊆ Finset.range N := by
  intro i hi
  rw [studiedCards, List.mem_toFinset] at hi
  have hmem := (studiedIndexList_sublist s).subset hi
  rw [hidx] at hmem
  exact Finset.mem_range.mpr (List.mem_range.mp hmem)

/-- The length of the flashcard list, read off from the index invariant. -/
theorem flashcards_length_of_index (s : Session) (N : Nat)
    (hidx : s.flashcards.map (fun c => c.flashcard_index) = List.range N) :
    s.flashcards.length = N := by
  have := congrArg List.length hidx
  simpa using this

/-- When fewer flashcards are studied than the index range allows, the
computed card index is the least index outside the studied set. -/
theorem currentCardIndex_least_unstudied (s : Session) (N : Nat)
    (hidx : s.flashcards.map (fun c => c.flashcard_index) = List.range N)
    (hcount : s.flashcards.countP (fun c => c.is_studied) < N) :
    currentCardIndex s ∉ studiedCards s ∧
      ∀ j, j < currentCardIndex s → j ∈ studiedCards s := by
  have hlen : s.flashcards.length = N := flashcards_length_of_index s N hidx
  have hcard : (studiedCards s).card = s.flashcards.countP (fun c => c.is_studied) :=
    studiedCards_card s N hidx
  have hne : ¬((studiedCards s).card = s.flashcards.length ∧
      0 < s.flashcards.length) := by
    rintro ⟨h1, -⟩
    omega
  rw [currentCardIndex, if_neg hne]
  cases hf : (List.range s.flashcards.length).find?
      (fun i => !(decide (i ∈ studiedCards s))) with
  | none =>
    exfalso
    have hall := find?_range_none _ _ hf
    have hsub : Finset.range N ⊆ studiedCards s := by
      intro j hj
      have := hall j (by rw [hlen]; exact Finset.mem_range.mp hj)
      simpa using this
    have hle := Finset.card_le_card hsub
    rw [Finset.card_range] at hle
    omega
  | some i =>
    obtain ⟨hp, hi, hmin⟩ := find?_range_some _ _ _ hf
    refine ⟨?_, ?_⟩
    · have : ¬(i ∈ studiedCards s) := by simpa using hp
      simpa using this
    · intro j hj
      have hjp := hmin j (by simpa using hj)
      simpa using hjp

/-- Pairing a mapped list with its source list, entry by entry. -/
theorem forall_pairs_map_self {α β : Type} (f : α → β) (R : β → α → Prop)
    (l : List α) (h : ∀ a ∈ l, R (f a) a) : List.Forall₂ R (l.map f) l := by
  induction l with
  | nil => exact List.Forall₂.nil
  | cons a t ih =>
    exact List.Forall₂.cons (h a (List.mem_cons_self a t))
      (ih (fun b hb => h b (List.mem_cons_of_mem a hb)))

/-- Finset characterization of the studied set under the index invariant: the
studied set collects exactly those indices below N carried by some studied
flashcard row. -/
theorem studiedCards_eq_filter_range (s : Session) (N : Nat)
    (hidx : s.flashcards.map (fun c => c.flashcard_index) = List.range N) :
    studiedCards s = (Finset.range N).filter
      (fun i => s.flashcards.any
        (fun c => c.flashcard_index == i && c.is_studied)) := by
  ext i
  rw [Finset.mem_filter, mem_studiedCards]
  constructor
  · rintro ⟨c, hc, hstud, rfl⟩
    refine ⟨?_, ?_⟩
    · have hmem : c.flashcard_index ∈
          s.flashcards.map (fun c => c.flashcard_index) :=
        List.mem_map.mpr ⟨c, hc, rfl⟩
      rw [hidx] at hmem
      exact Finset.mem_range.mpr (List.mem_range.mp hmem)
    · rw [List.any_eq_true]
      exact ⟨c, hc, by simp [hstud]⟩
  · rintro ⟨-, hany⟩
    rw [List.any_eq_true] at hany
    obtain ⟨c, hc, hcp⟩ := hany
    have hsplit : c.flashcard_index = i ∧ c.is_studied = true := by
      simpa using hcp
    exact ⟨c, hc, hsplit.2, hsplit.1⟩

/-- Counting studied rows when every row is studied. -/
theorem countP_studied_of_all (s : Session)
    (hall : ∀ c ∈ s.flashcards, c.is_studied = true) :
    s.flashcards.countP (fun c => c.is_studied) = s.flashcards.length := by
  rw [List.countP_eq_length_filter, List.filter_eq_self.mpr hall]

/-! Claim theorems. -/

/-- C1: for every session with status completed and type fast or depth, the
resolver returns phase completed, regardless of all other session fields. -/
theorem C1_completed_is_terminal (s : Session)
    (htype : s.session_type = "fast" ∨ s.session_type = "depth")
    (hstatus : s.status = "completed") :
    (resolveSession s).currentPhase = "completed" := by
  rcases htype with h | h <;> simp [resolveSession, currentPhase, h, hstatus]

/-- Concrete completed depth session exercising C1. -/
def sessionC1w : Session :=
  { id := "s-c1", session_type := "depth", status := "completed",
    topic := "algebra", total_flashcards := 2, studied_flashcards := 1,
    total_questions := 1, correct_answers := 0,
    prerequisites := some ["sets"], prerequisite_results := some [("sets", true)],
    core_concepts := none, advanced_concepts := none, evaluation_results := none,
    flashcards := [⟨0, "q0", "a0", true⟩, ⟨1, "q1", "a1", false⟩],
    questions := [⟨0, "mq0", ["a", "b", "c", "d"], "a", none, none⟩] }

/-- C1 witness: the theorem applied to a concrete completed depth session. -/
theorem C1_completed_is_terminal_witness :
    (sessionC1w.session_type = "fast" ∨ sessionC1w.session_type = "depth") ∧
      sessionC1w.status = "completed" ∧
      (resolveSession sessionC1w).currentPhase = "completed" :=
  ⟨Or.inr rfl, rfl, C1_completed_is_terminal sessionC1w (Or.inr rfl) rfl⟩

/-- C4: for every depth session that is not completed, presence of
prerequisite_results gives phase learning; otherwise presence of
prerequisites gives phase evaluation; otherwise phase prerequisites. The
prerequisite_results check takes precedence over the prerequisites check:
the first conjunct needs no assumption on the prerequisites field. -/
theorem C4_depth_phase_cascade (s : Session)
    (htype : s.session_type = "depth") (hstatus : s.status ≠ "completed") :
    (s.prerequisite_results.isSome →
        (resolveSession s).currentPhase = "learning") ∧
      (s.prerequisite_results = none → s.prerequisites.isSome →
        (resolveSession s).currentPhase = "evaluation") ∧
      (s.prerequisite_results = none → s.prerequisites = none →
        (resolveSession s).currentPhase = "prerequisites") := by
  refine ⟨fun h1 => ?_, fun h1 h2 => ?_, fun h1 h2 => ?_⟩
  · simp [resolveSession, currentPhase, htype, hstatus, h1]
  · simp [resolveSession, currentPhase, htype, hstatus, h1, h2]
  · simp [resolveSession, currentPhase, htype, hstatus, h1, h2]

/-- Concrete in-progress depth session exercising C4. -/
def sessionC4w : Session :=
  { id := "s-c4", session_type := "depth", status := "in_progress",
    topic := "calculus", total_flashcards := 0, studied_flashcards := 0,
    total_questions := 0, correct_answers := 0,
    prerequisites := some ["limits", "functions"], prerequisite_results := none,
    core_concepts := none, advanced_concepts := none, evaluation_results := none,
    flashcards := [], questions := [] }

/-- C4 witness: the theorem applied to a concrete depth session that holds a
prerequisite list but no prerequisite results, landing in evaluation. -/
theorem C4_depth_phase_cascade_witness :
    sessionC4w.session_type = "depth" ∧ sessionC4w.status ≠ "completed" ∧
      ((sessionC4w.prerequisite_results.isSome →
          (resolveSession sessionC4w).currentPhase = "learning") ∧
        (sessionC4w.prerequisite_results = none → sessionC4w.prerequisites.isSome →
          (resolveSession sessionC4w).currentPhase = "evaluation") ∧
        (sessionC4w.prerequisite_results = none → sessionC4w.prerequisites = none →
          (resolveSession sessionC4w).currentPhase = "prerequisites")) :=
  ⟨rfl, by decide, C4_depth_phase_cascade sessionC4w rfl (by decide)⟩

/-- C7: a fast session with zero total flashcards, an empty flashcard list
and a status other than completed resolves to phase flashcards with cursor 0;
the empty studied set does not count as all cards studied because the
evaluation branch also requires a positive total. -/
theorem C7_fast_empty_degenerate (s : Session)
    (htype : s.session_type = "fast") (hstatus : s.status ≠ "completed")
    (htot : s.total_flashcards = 0) (hcards : s.flashcards = []) :
    (resolveSession s).currentPhase = "flashcards" ∧
      (resolveSession s).currentCardIndex = 0 := by
  constructor
  · simp [resolveSession, currentPhase, htype, hstatus, htot]
  · simp [resolveSession, currentCardIndex, hcards]

/-- Concrete empty fast session exercising C7. -/
def sessionC7w : Session :=
  { id := "s-c7", session_type := "fast", status := "in_progress",
    topic := "history", total_flashcards := 0, studied_flashcards := 0,
    total_questions := 0, correct_answers := 0,
    prerequisites := none, prerequisite_results := none,
    core_concepts := none, advanced_concepts := none, evaluation_results := none,
    flashcards := [], questions := [] }

/-- C7 witness: the theorem applied to a concrete empty fast session. -/
theorem C7_fast_empty_degenerate_witness :
    sessionC7w.session_type = "fast" ∧ sessionC7w.status ≠ "completed" ∧
      sessionC7w.total_flashcards = 0 ∧ sessionC7w.flashcards = [] ∧
      ((resolveSession sessionC7w).currentPhase = "flashcards" ∧
        (resolveSession sessionC7w).currentCardIndex = 0) :=
  ⟨rfl, by decide, rfl, rfl,
    C7_fast_empty_degenerate sessionC7w rfl (by decide) rfl rfl⟩

/-- C9: a session whose session_type is neither fast nor depth still resolves
successfully, and its phase is the initial default flashcards — no branch of
the phase derivation runs, even when status is completed. -/
theorem C9_unknown_type_silent_default (s : Session)
    (hfast : s.session_type ≠ "fast") (hdepth : s.session_type ≠ "depth") :
    getSessionResumeData s = Except.ok (resolveSession s) ∧
      (resolveSession s).currentPhase = "flashcards" :=
  ⟨rfl, by simp [resolveSession, currentPhase, hfast, hdepth]⟩

/-- Concrete completed session of unknown type exercising C9. -/
def sessionC9w : Session :=
  { id := "s-c9", session_type := "review", status := "completed",
    topic := "physics", total_flashcards := 1, studied_flashcards := 1,
    total_questions := 0, correct_answers := 0,
    prerequisites := none, prerequisite_results := none,
    core_concepts := none, advanced_concepts := none, evaluation_results := none,
    flashcards := [⟨0, "q0", "a0", true⟩], questions := [] }

/-- C9 witness: the theorem applied to a concrete completed session whose
type is the unknown string review. -/
theorem C9_unknown_type_silent_default_witness :
    sessionC9w.session_type ≠ "fast" ∧ sessionC9w.session_type ≠ "depth" ∧
      (getSessionResumeData sessionC9w = Except.ok (resolveSession sessionC9w) ∧
        (resolveSession sessionC9w).currentPhase = "flashcards") :=
  ⟨by decide, by decide,
    C9_unknown_type_silent_default sessionC9w (by decide) (by decide)⟩

/-- Concrete in-progress session of unknown type refuting C5. -/
def sessionC5cex : Session :=
  { id := "s-c5", session_type := "revision", status := "in_progress",
    topic := "biology", total_flashcards := 1, studied_flashcards := 0,
    total_questions := 0, correct_answers := 0,
    prerequisites := none, prerequisite_results := none,
    core_concepts := none, advanced_concepts := none, evaluation_results := none,
    flashcards := [⟨0, "q0", "a0", false⟩], questions := [] }

/-- C5 counterexample: for a session whose type is neither fast nor depth the
code signals no error at all — it succeeds and silently produces a resume
state, contradicting the claim that an InvalidSession error is signalled and
surfaced for exactly these sessions. -/
theorem C5_invalid_type_error_counterexample :
    sessionC5cex.session_type ≠ "fast" ∧ sessionC5cex.session_type ≠ "depth" ∧
      (getSessionResumeData sessionC5cex).isOk = true ∧
      (resolveSession sessionC5cex).currentPhase = "flashcards" :=
  ⟨by decide, by decide, rfl, by decide⟩

/-- C5 (amended): the resolver never signals an error for any session; in
particular a session whose type is neither fast nor depth is not rejected
with an InvalidSession error but silently resolved with the default phase. -/
theorem C5_amended_no_error_signalled (s : Session) :
    (getSessionResumeData s).isOk = true := rfl

/-- C10: for every input the cursor stays within the flashcard list: it is
strictly below the list length when the list is non-empty, and 0 (strictly
below 1) when the list is empty. -/
theorem C10_cursor_in_bounds (s : Session) :
    (resolveSession s).currentCardIndex < max s.flashcards.length 1 := by
  show currentCardIndex s < max s.flashcards.length 1
  rw [currentCardIndex]
  split
  · rename_i h
    omega
  · cases hf : (List.range s.flashcards.length).find?
        (fun i => !(decide (i ∈ studiedCards s))) with
    | none => simp
    | some i =>
      have hi : i < s.flashcards.length :=
        List.mem_range.mp (List.mem_of_find?_eq_some hf)
      simp
      omega

/-- C8: for every input, the answered list has exactly one entry per question
row with a non-null user_answer, and entry by entry it carries that row's
index, user answer and correctness flag. -/
theorem C8_answered_questions_exact (s : Session) :
    (resolveSession s).answeredQuestions.length =
        s.questions.countP (fun q => q.user_answer.isSome) ∧
      List.Forall₂
        (fun (a : AnsweredQuestion) (q : QuestionRecord) =>
          a.questionIndex = q.question_index ∧ a.userAnswer = q.user_answer ∧
            a.isCorrect = q.is_correct ∧ q.user_answer.isSome = true)
        (resolveSession s).answeredQuestions
        (s.questions.filter (fun q => q.user_answer.isSome)) := by
  constructor
  · show (answeredQuestions s).length = _
    rw [answeredQuestions, List.length_map]
    exact (List.countP_eq_length_filter _ _).symm
  · show List.Forall₂ _ (answeredQuestions s) _
    rw [answeredQuestions]
    refine forall_pairs_map_self _ _ _ (fun q hq => ?_)
    exact ⟨rfl, rfl, rfl, (List.mem_filter.mp hq).2⟩

/-- Concrete completed fast session with an unstudied card refuting C2. -/
def sessionC2cex : Session :=
  { id := "s-c2x", session_type := "fast", status := "completed",
    topic := "geometry", total_flashcards := 1, studied_flashcards := 0,
    total_questions := 0, correct_answers := 0,
    prerequisites := none, prerequisite_results := none,
    core_concepts := none, advanced_concepts := none, evaluation_results := none,
    flashcards := [⟨0, "q0", "a0", false⟩], questions := [] }

/-- C2 counterexample: the claim puts no condition on status, but the code
checks status completed before the studied count. This fast session meets
every hypothesis of the claim — total 1 > 0, index list exactly 0..0, zero
of one card studied — yet resolves to phase completed, not flashcards. -/
theorem C2_fast_partial_counterexample :
    sessionC2cex.session_type = "fast" ∧
      sessionC2cex.total_flashcards = 1 ∧ (0 : Nat) < 1 ∧
      sessionC2cex.flashcards.map (fun c => c.flashcard_index) = List.range 1 ∧
      sessionC2cex.flashcards.countP (fun c => c.is_studied) < 1 ∧
      (resolveSession sessionC2cex).currentPhase ≠ "flashcards" :=
  ⟨rfl, rfl, by decide, by decide, by decide, by decide⟩

/-- C2 (amended, adding status ≠ completed, which the original claim omits):
a fast session that is not completed, with N > 0 total flashcards, index list
exactly 0 .. N-1 and fewer than N studied cards, resolves to phase
flashcards, with studiedIndices exactly the indices carried by studied rows,
and a cursor that is outside the studied set while every smaller index is in
it — the smallest unstudied index. -/
theorem C2_amended_fast_partial_progress (s : Session) (N : Nat)
    (htype : s.session_type = "fast") (hstatus : s.status ≠ "completed")
    (htot : s.total_flashcards = N) (_hpos : 0 < N)
    (hidx : s.flashcards.map (fun c => c.flashcard_index) = List.range N)
    (hcount : s.flashcards.countP (fun c => c.is_studied) < N) :
    (resolveSession s).currentPhase = "flashcards" ∧
      (resolveSession s).studiedCards = (Finset.range N).filter
        (fun i => s.flashcards.any
          (fun c => c.flashcard_index == i && c.is_studied)) ∧
      (resolveSession s).currentCardIndex ∉ (resolveSession s).studiedCards ∧
      Finset.range (resolveSession s).currentCardIndex ⊆
        (resolveSession s).studiedCards := by
  have hcard := studiedCards_card s N hidx
  have hne : (studiedCards s).card ≠ s.total_flashcards := by omega
  obtain ⟨hnotmem, hmin⟩ := currentCardIndex_least_unstudied s N hidx hcount
  refine ⟨?_, studiedCards_eq_filter_range s N hidx, hnotmem, ?_⟩
  · show currentPhase s = "flashcards"
    rw [currentPhase, if_pos htype, if_neg hstatus, if_neg]
    rintro ⟨h1, -⟩
    exact hne h1
  · intro j hj
    exact hmin j (Finset.mem_range.mp hj)

/-- Concrete partially studied fast session exercising the amended C2: card 0
of 3 is studied, so the resolver must land on card 1. -/
def sessionC2w : Session :=
  { id := "s-c2", session_type := "fast", status := "in_progress",
    topic := "chemistry", total_flashcards := 3, studied_flashcards := 1,
    total_questions := 0, correct_answers := 0,
    prerequisites := none, prerequisite_results := none,
    core_concepts := none, advanced_concepts := none, evaluation_results := none,
    flashcards := [⟨0, "q0", "a0", true⟩, ⟨1, "q1", "a1", false⟩,
      ⟨2, "q2", "a2", false⟩],
    questions := [] }

/-- C2 witness: the amended theorem applied to the concrete session. -/
theorem C2_amended_fast_partial_progress_witness :
    sessionC2w.session_type = "fast" ∧ sessionC2w.status ≠ "completed" ∧
      sessionC2w.total_flashcards = 3 ∧ (0 : Nat) < 3 ∧
      sessionC2w.flashcards.map (fun c => c.flashcard_index) = List.range 3 ∧
      sessionC2w.flashcards.countP (fun c => c.is_studied) < 3 ∧
      ((resolveSession sessionC2w).currentPhase = "flashcards" ∧
        (resolveSession sessionC2w).studiedCards = (Finset.range 3).filter
          (fun i => sessionC2w.flashcards.any
            (fun c => c.flashcard_index == i && c.is_studied)) ∧
        (resolveSession sessionC2w).currentCardIndex ∉
          (resolveSession sessionC2w).studiedCards ∧
        Finset.range (resolveSession sessionC2w).currentCardIndex ⊆
          (resolveSession sessionC2w).studiedCards) :=
  ⟨rfl, by decide, rfl, by decide, by decide, by decide,
    C2_amended_fast_partial_progress sessionC2w 3 rfl (by decide) rfl
      (by decide) (by decide) (by decide)⟩

/-- C3: a fast session that is not completed, with N > 0 total flashcards,
index list exactly 0 .. N-1 and every card studied, resolves to phase
evaluation. -/
theorem C3_fast_all_studied_evaluation (s : Session) (N : Nat)
    (htype : s.session_type = "fast") (hstatus : s.status ≠ "completed")
    (htot : s.total_flashcards = N) (hpos : 0 < N)
    (hidx : s.flashcards.map (fun c => c.flashcard_index) = List.range N)
    (hall : ∀ c ∈ s.flashcards, c.is_studied = true) :
    (resolveSession s).currentPhase = "evaluation" := by
  have hlen := flashcards_length_of_index s N hidx
  have hcard := studiedCards_card s N hidx
  have hcnt := countP_studied_of_all s hall
  have hCN : (studiedCards s).card = s.total_flashcards := by omega
  show currentPhase s = "evaluation"
  rw [currentPhase, if_pos htype, if_neg hstatus, if_pos ⟨hCN, by omega⟩]

/-- Concrete fully studied fast session exercising C3. -/
def sessionC3w : Session :=
  { id := "s-c3", session_type := "fast", status := "in_progress",
    topic := "anatomy", total_flashcards := 3, studied_flashcards := 3,
    total_questions := 0, correct_answers := 0,
    prerequisites := none, prerequisite_results := none,
    core_concepts := none, advanced_concepts := none, evaluation_results := none,
    flashcards := [⟨0, "q0", "a0", true⟩, ⟨1, "q1", "a1", true⟩,
      ⟨2, "q2", "a2", true⟩],
    questions := [] }

/-- C3 witness: the theorem applied to the concrete fully studied session. -/
theorem C3_fast_all_studied_evaluation_witness :
    sessionC3w.session_type = "fast" ∧ sessionC3w.status ≠ "completed" ∧
      sessionC3w.total_flashcards = 3 ∧ (0 : Nat) < 3 ∧
      sessionC3w.flashcards.map (fun c => c.flashcard_index) = List.range 3 ∧
      (∀ c ∈ sessionC3w.flashcards, c.is_studied = true) ∧
      (resolveSession sessionC3w).currentPhase = "evaluation" :=
  ⟨rfl, by decide, rfl, by decide, by decide, by decide,
    C3_fast_all_studied_evaluation sessionC3w 3 rfl (by decide) rfl
      (by decide) (by decide) (by decide)⟩

/-- C6: for any session whose flashcard list is non-empty, carries indices
exactly 0 .. length-1 and has every card studied, the cursor is the last
index length - 1, not an index past the end of the list. -/
theorem C6_all_studied_cursor_last (s : Session)
    (hne : s.flashcards ≠ [])
    (hidx : s.flashcards.map (fun c => c.flashcard_index) =
      List.range s.flashcards.length)
    (hall : ∀ c ∈ s.flashcards, c.is_studied = true) :
    (resolveSession s).currentCardIndex = s.flashcards.length - 1 := by
  have hcard := studiedCards_card s s.flashcards.length hidx
  have hcnt := countP_studied_of_all s hall
  have hpos : 0 < s.flashcards.length := List.length_pos.mpr hne
  show currentCardIndex s = s.flashcards.length - 1
  rw [currentCardIndex, if_pos ⟨by omega, hpos⟩]

/-- Concrete fully studied depth session exercising C6: the cursor lands on
the final card (index 1), independently of the phase branch taken. -/
def sessionC6w : Session :=
  { id := "s-c6", session_type := "depth", status := "in_progress",
    topic := "optics", total_flashcards := 2, studied_flashcards := 2,
    total_questions := 0, correct_answers := 0,
    prerequisites := some ["waves"], prerequisite_results := none,
    core_concepts := none, advanced_concepts := none, evaluation_results := none,
    flashcards := [⟨0, "q0", "a0", true⟩, ⟨1, "q1", "a1", true⟩],
    questions := [] }

/-- C6 witness: the theorem applied to the concrete fully studied session. -/
theorem C6_all_studied_cursor_last_witness :
    sessionC6w.flashcards ≠ [] ∧
      sessionC6w.flashcards.map (fun c => c.flashcard_index) =
        List.range sessionC6w.flashcards.length ∧
      (∀ c ∈ sessionC6w.flashcards, c.is_studied = true) ∧
      (resolveSession sessionC6w).currentCardIndex =
        sessionC6w.flashcards.length - 1 :=
  ⟨by decide, by decide, by decide,
    C6_all_studied_cursor_last sessionC6w (by decide) (by decide) (by decide)⟩

end SunHacks
